import Mathlib

/-!
# hydra-queue-runner: `build-remote.cc`

A shallow embedding of `copyClosureTo`, `copyClosureFrom` and `buildRemote`
from `src/hydra-queue-runner/build-remote.cc`, followed by theorems about them.

Conventions of the embedding

* `std::string` is a list of `char`s (`Str`); every element stands for one byte.
  The typographic quotes `‘` and `’` of the format strings are therefore the
  three-byte UTF-8 sequences `E2 80 98` and `E2 80 99`.
* `PathSet` (`std::set<Path>`) is a `Finset`; iteration over it is in ascending
  order, as for `std::set`.
* The sink `to` is the list of items written so far, oldest first.  The source
  `from` is a script: for every read the function performs, the value the remote
  side answers with, or `none` when the stream has ended (`EndOfFile`).
* The calls into the Nix store library (`computeFSClosure`, `topoSortPaths`,
  `readDerivation`, `assertStorePath`) are parameters, collected in `Store`;
  `none` stands for a thrown exception.
* A C++ function that can throw returns `Except (Exn × State) State`: the
  exception together with the state at the point of the throw, so that what was
  written to the sink before the throw stays observable.
* Logging (`printMsg`), the copy-closure token (which only delays the caller) and
  the `nrStepsBuilding` counter (incremented and decremented around one read)
  leave no trace in the state.
* Writing to the sink does not fail, `exportPaths` writes its whole payload,
  `store->importPaths` returns once the packaged paths have arrived, and the
  `remove` in the destructor of `AutoDelete` removes the file.
-/

namespace Hydra

/-! ## Strings -/

/-- A `std::string`: a sequence of `char`. -/
abbrev Str := List Char

/-- A store path (`nix::Path`, a `std::string`). -/
abbrev Path := Str

/-- A `std::set<Path>`. -/
abbrev PathSet := Finset Path

/-- An ASCII string literal as a `std::string`. -/
def str (s : String) : Str := s.data

/-- The bytes of `‘` (U+2018) in UTF-8, as they stand in the source file. -/
def lsquo : Str := [Char.ofNat 0xE2, Char.ofNat 0x80, Char.ofNat 0x98]

/-- The bytes of `’` (U+2019) in UTF-8, as they stand in the source file. -/
def rsquo : Str := [Char.ofNat 0xE2, Char.ofNat 0x80, Char.ofNat 0x99]

/-- The exceptions that can leave `buildRemote`. -/
inductive Exn where
  | EndOfFile
  | Error (msg : Str)
  | SysError (msg : Str)
  | SerialisationError
  | out_of_range
  /-- An exception thrown inside a library call whose text is not in this file. -/
  | Collaborator
  deriving DecidableEq

/-- The method `std::string::rfind(char)`: the index of the last occurrence. -/
def rfind (c : Char) : Str → Option Nat
  | [] => none
  | x :: xs =>
    match rfind c xs with
    | some i => some (i + 1)
    | none => if x = c then some 0 else none

/-- The constructor `std::string(str, pos, len)`: throws when `pos > str.size()`. -/
def substr (s : Str) (pos len : Nat) : Except Exn Str :=
  if pos > s.length then .error .out_of_range else .ok ((s.drop pos).take len)

/-- The constructor `std::string(str, pos)`: throws when `pos > str.size()`. -/
def substrFrom (s : Str) (pos : Nat) : Except Exn Str :=
  if pos > s.length then .error .out_of_range else .ok (s.drop pos)

/-- The function `nix::baseNameOf`: what follows the last slash; throws when there is none. -/
def baseNameOf (path : Path) : Except Exn Str :=
  match rfind '/' path with
  | none => .error (.Error (str "invalid file name " ++ lsquo ++ path ++ rsquo))
  | some pos => substrFrom path (pos + 1)

/-- The function `nix::chomp`: drops trailing blanks, tabs and line ends. -/
def chomp (s : Str) : Str :=
  (s.reverse.dropWhile (fun c => c = ' ' || c = '\n' || c = '\r' || c = '\t')).reverse

/-! ## The serve protocol

The constants are those of `serve-protocol.hh` in Nix.  Of their values the theorems
use only that `SERVE_MAGIC_2` fits in 32 bits. -/

def SERVE_MAGIC_1 : Nat := 0x390c9deb
def SERVE_MAGIC_2 : Nat := 0x5452eecb
def SERVE_PROTOCOL_VERSION : Nat := 0x201
def GET_PROTOCOL_MAJOR (x : Nat) : Nat := x &&& 0xff00

def cmdQueryValidPaths : Nat := 1
def cmdImportPaths : Nat := 4
def cmdExportPaths : Nat := 5
def cmdBuildPaths : Nat := 6

/-- One item written to the sink `to`. -/
inductive Out where
  /-- Written by `writeInt`. -/
  | int (n : Nat)
  /-- Written by `writeStrings` for a set of paths. -/
  | strings (paths : PathSet)
  /-- Written by `exportPaths(store, paths, false, to)`: the paths packaged in the given order. -/
  | exported (paths : List Path)
  deriving DecidableEq

/-- The function `readInt`: one 64-bit word whose upper half must be zero. -/
def readInt (word : Option Nat) : Except Exn Nat :=
  match word with
  | none => .error .EndOfFile
  | some n => if n < 2 ^ 32 then .ok n else .error .SerialisationError

/-- The function `readString`. -/
def readString (reply : Option Str) : Except Exn Str :=
  match reply with
  | none => .error .EndOfFile
  | some s => .ok s

/-! ## Data model -/

/-- The enumeration inside `RemoteResult`. -/
inductive Status where
  | rrSuccess
  | rrPermanentFailure
  | rrTimedOut
  | rrMiscFailure
  deriving DecidableEq

/-- Modelled from the spec: `RemoteResult` is declared in `build-remote.hh`, which is
not among the sources; the fields are those `buildRemote` assigns (the spec's
DispatchResult: status, start and stop time, log path, error message). -/
structure RemoteResult where
  status : Status
  errorMsg : Str
  startTime : Nat
  stopTime : Nat
  logFile : Path

/-- The parts of `nix::Derivation` that `buildRemote` reads.  Both maps are lists of
entries in key order; an output is represented by its `path`. -/
structure Derivation where
  outputs : List (Str × Path)
  inputDrvs : List (Path × List Str)

/-- The local store and the library functions working on it. -/
structure Store where
  /-- The call `computeFSClosure(store, path, closure)`: the set `closure` after the call. -/
  computeFSClosure : Path → PathSet → Option PathSet
  /-- The call `topoSortPaths(store, paths)`. -/
  topoSortPaths : PathSet → Option (List Path)
  /-- The call `readDerivation(path)`. -/
  readDerivation : Path → Option Derivation
  /-- Whether `assertStorePath(path)` returns (rather than throws). -/
  isStorePath : Path → Bool

/-- What the remote side answers to each read, `none` for a stream that has ended. -/
structure Remote where
  /-- First word of the handshake reply. -/
  magic : Option Nat
  /-- Second word of the handshake reply. -/
  version : Option Nat
  /-- Reply to the query for valid paths. -/
  validPaths : Option (List Path)
  /-- Acknowledgement of the import. -/
  ackImport : Option Nat
  /-- Status word of the build. -/
  buildStatus : Option Nat
  /-- Error string following a nonzero status word. -/
  buildError : Option Str
  /-- The packaged outputs read by `store->importPaths(false, from)`. -/
  exportData : Option (List Path)

/-- Everything outside the function that a run of `buildRemote` depends on. -/
structure Env where
  store : Store
  remote : Remote
  /-- Whether `createDirs` returns. -/
  createDirsOk : Bool
  /-- Whether `open` of the log file returns a descriptor. -/
  openOk : Bool
  /-- Whether `openConnection` returns (pipes created, child started). -/
  spawnOk : Bool
  /-- Contents of the log file when `readFile` reads it back. -/
  logText : Str
  /-- The two values of `time(0)`. -/
  startTime : Nat
  stopTime : Nat
  /-- Whether a file already exists at the log path before the call. -/
  logFileBefore : Bool

/-- The mutable state of one run. -/
structure State where
  /-- Items written to the sink `to` (a reserved word here), oldest first. -/
  sink : List Out
  /-- The caller's `result`. -/
  result : RemoteResult
  /-- Whether a file exists at `result.logFile`. -/
  logFileExists : Bool
  /-- The flag `del` of the `AutoDelete` object (`false` while there is none). -/
  autoDelete : Bool

def writeInt (n : Nat) (s : State) : State := { s with sink := s.sink ++ [Out.int n] }

def writeStrings (paths : PathSet) (s : State) : State :=
  { s with sink := s.sink ++ [Out.strings paths] }

def exportPaths (paths : List Path) (s : State) : State :=
  { s with sink := s.sink ++ [Out.exported paths] }

/-- The function `readStorePaths<PathSet>`: reads strings, checks each with `assertStorePath`. -/
def readStorePaths (isStorePath : Path → Bool) (reply : Option (List Path)) :
    Except Exn PathSet :=
  match reply with
  | none => .error .EndOfFile
  | some l => if l.all isStorePath then .ok l.toFinset else .error .Collaborator

/-! ## `copyClosureTo` -/

/-- Lines 66-68: the closure of all `paths`. -/
def computeClosure (store : Store) (paths : PathSet) : Option PathSet :=
  (paths.sort (· ≤ ·)).foldlM (fun closure path => store.computeFSClosure path closure) ∅

/-- Lines 88-90: walk `sorted` from the back, append what is not in `present`. -/
def missingPaths (sorted : List Path) (present : PathSet) : List Path :=
  sorted.reverse.foldl (fun missing i => if i ∉ present then missing ++ [i] else missing) []

def copyClosureTo (store : Store) (remote : Remote) (paths : PathSet)
    (useSubstitutes : Bool) (s : State) : Except (Exn × State) State :=
  match computeClosure store paths with
  | none => .error (.Collaborator, s)
  | some closure =>
    let s := writeInt cmdQueryValidPaths s
    let s := writeInt 1 s
    let s := writeInt (if useSubstitutes then 1 else 0) s
    let s := writeStrings closure s
    match readStorePaths store.isStorePath remote.validPaths with
    | .error e => .error (e, s)
    | .ok present =>
      if present.card = closure.card then .ok s
      else
        match store.topoSortPaths closure with
        | none => .error (.Collaborator, s)
        | some sorted =>
          let missing := missingPaths sorted present
          let s := writeInt cmdImportPaths s
          let s := exportPaths missing s
          match readInt remote.ackImport with
          | .error e => .error (e, s)
          | .ok ack =>
            if ack ≠ 1 then
              .error (.Error (str "remote machine failed to import closure"), s)
            else .ok s

/-! ## `copyClosureFrom` -/

def copyClosureFrom (remote : Remote) (paths : PathSet) (s : State) :
    Except (Exn × State) State :=
  let s := writeInt cmdExportPaths s
  let s := writeInt 0 s
  let s := writeStrings paths s
  match remote.exportData with
  | none => .error (.EndOfFile, s)
  | some _ => .ok s

/-! ## `buildRemote` -/

/-- Lines 134-135: the log file path. -/
def logFilePath (logDir drvPath : Path) : Except Exn Path :=
  match baseNameOf drvPath with
  | .error e => .error e
  | .ok base =>
    match substr base 0 2 with
    | .error e => .error e
    | .ok dir =>
      match substrFrom base 2 with
      | .error e => .error e
      | .ok file => .ok (logDir ++ str "/" ++ dir ++ str "/" ++ file)

/-- Lines 134-149: log file and connection. -/
def openSession (env : Env) (drvPath logDir : Path) (s : State) :
    Except (Exn × State) State :=
  match logFilePath logDir drvPath with
  | .error e => .error (e, s)
  | .ok logFile =>
    let s := { s with result := { s.result with logFile := logFile } }
    let s := { s with autoDelete := true }
    if !env.createDirsOk then .error (.Collaborator, s)
    else if !env.openOk then
      .error (.SysError (str "creating log file " ++ lsquo ++ logFile ++ rsquo), s)
    else
      let s := { s with logFileExists := true }
      if !env.spawnOk then .error (.Collaborator, s) else .ok s

/-- Lines 153-162: the body of the `try` block. -/
def handshakeTry (remote : Remote) (sshName : Str) (s : State) :
    Except (Exn × State) State :=
  let s := writeInt SERVE_MAGIC_1 s
  let s := writeInt SERVE_PROTOCOL_VERSION s
  match readInt remote.magic with
  | .error e => .error (e, s)
  | .ok magic =>
    if magic ≠ SERVE_MAGIC_2 then
      .error (.Error (str "protocol mismatch with " ++ lsquo ++ str "nix-store --serve"
        ++ rsquo ++ str " on " ++ lsquo ++ sshName ++ rsquo), s)
    else
      match readInt remote.version with
      | .error e => .error (e, s)
      | .ok version =>
        if GET_PROTOCOL_MAJOR version ≠ 0x200 then
          .error (.Error (str "unsupported " ++ lsquo ++ str "nix-store --serve" ++ rsquo
            ++ str " protocol version on " ++ lsquo ++ sshName ++ rsquo), s)
        else .ok s

/-- Lines 152-167: the handshake with its `catch (EndOfFile &)`. -/
def handshake (env : Env) (sshName : Str) (s : State) : Except (Exn × State) State :=
  match handshakeTry env.remote sshName s with
  | .error (.EndOfFile, s) =>
    .error (.Error (str "cannot connect to " ++ lsquo ++ sshName ++ rsquo ++ str ": "
      ++ chomp env.logText), s)
  | r => r

/-- Lines 170-177: the derivation itself and the used outputs of its input derivations. -/
def gatherInputs (store : Store) (drvPath : Path) (drv : Derivation) : Option PathSet :=
  drv.inputDrvs.foldlM
    (fun inputs input =>
      match store.readDerivation input.1 with
      | none => none
      | some drv2 =>
        some (input.2.foldl
          (fun inputs name =>
            match drv2.outputs.lookup name with
            | some path => insert path inputs
            | none => inputs)
          inputs))
    ({drvPath} : PathSet)

/-- Lines 134-181: everything up to and including the transfer of the input closure. -/
def sendInputs (env : Env) (sshName : Str) (drvPath : Path) (drv : Derivation)
    (logDir : Path) (s : State) : Except (Exn × State) State :=
  match openSession env drvPath logDir s with
  | .error e => .error e
  | .ok s =>
    match handshake env sshName s with
    | .error e => .error e
    | .ok s =>
      match gatherInputs env.store drvPath drv with
      | none => .error (.Collaborator, s)
      | some inputs => copyClosureTo env.store env.remote inputs false s

/-- Lines 202-204. -/
def classify (res : Nat) : Status :=
  if res = 100 then .rrPermanentFailure
  else if res = 101 then .rrTimedOut
  else .rrMiscFailure

/-- Lines 183-193: cancel the auto-delete, send the build command, record the start time. -/
def sendBuildCommand (env : Env) (drvPath : Path) (maxSilentTime buildTimeout : Nat)
    (s : State) : State :=
  let s := { s with autoDelete := false }
  let s := writeInt cmdBuildPaths s
  let s := writeStrings {drvPath} s
  let s := writeInt maxSilentTime s
  let s := writeInt buildTimeout s
  { s with result := { s.result with startTime := env.startTime } }

/-- Line 199. -/
def recordStop (env : Env) (s : State) : State :=
  { s with result := { s.result with stopTime := env.stopTime } }

/-- Lines 201-204: the error message and the status of a failed build. -/
def recordFailure (sshName msg : Str) (res : Nat) (s : State) : State :=
  let s := { s with result :=
    { s.result with errorMsg := msg ++ str " on " ++ lsquo ++ sshName ++ rsquo } }
  { s with result := { s.result with status := classify res } }

/-- Lines 210-212: the paths of all outputs of the derivation. -/
def outputPaths (drv : Derivation) : PathSet :=
  drv.outputs.foldl (fun outputs output => insert output.2 outputs) ∅

/-- Lines 183-219: the build and the transfer of the outputs. -/
def runBuild (env : Env) (sshName : Str) (drvPath : Path) (drv : Derivation)
    (maxSilentTime buildTimeout : Nat) (s : State) : Except (Exn × State) State :=
  let s := sendBuildCommand env drvPath maxSilentTime buildTimeout s
  match readInt env.remote.buildStatus with
  | .error e => .error (e, s)
  | .ok res =>
    let s := recordStop env s
    if res ≠ 0 then
      match readString env.remote.buildError with
      | .error e => .error (e, s)
      | .ok msg => .ok (recordFailure sshName msg res s)
    else
      match copyClosureFrom env.remote (outputPaths drv) s with
      | .error e => .error e
      | .ok s => .ok { s with result := { s.result with status := .rrSuccess } }

/-- The destructor of `AutoDelete`: removes the file unless cancelled. -/
def autoDeleteDtor (s : State) : State :=
  if s.autoDelete then { s with logFileExists := false } else s

/-- The state in which `buildRemote` starts. -/
def initState (env : Env) (result : RemoteResult) : State :=
  { sink := [], result := result, logFileExists := env.logFileBefore, autoDelete := false }

/-- The function `buildRemote`: how it ends (`.ok ()` for a return, `.error e` for an
exception) and the state it leaves behind. -/
def buildRemote (env : Env) (sshName : Str) (drvPath : Path) (drv : Derivation)
    (logDir : Path) (maxSilentTime buildTimeout : Nat) (result : RemoteResult) :
    Except Exn Unit × State :=
  match sendInputs env sshName drvPath drv logDir (initState env result) with
  | .error (e, s) => (.error e, autoDeleteDtor s)
  | .ok s =>
    match runBuild env sshName drvPath drv maxSilentTime buildTimeout s with
    | .error (e, s) => (.error e, autoDeleteDtor s)
    | .ok s => (.ok (), autoDeleteDtor s)

/-- The state a call leaves behind, whether it returned or threw. -/
def after (r : Except (Exn × State) State) : State :=
  match r with
  | .ok s => s
  | .error (_, s) => s

/-- How a call ended: returned, or threw the given exception. -/
def outcome (r : Except (Exn × State) State) : Except Exn Unit :=
  match r with
  | .ok _ => .ok ()
  | .error (e, _) => .error e

/-- The remote side answers the handshake with a wrong magic word, or with the right
magic word and a version whose major component is not `0x200`. -/
def HandshakeRejected (remote : Remote) : Prop :=
  (∃ m, remote.magic = some m ∧ m ≠ SERVE_MAGIC_2) ∨
  (remote.magic = some SERVE_MAGIC_2 ∧
    ∃ v, remote.version = some v ∧ GET_PROTOCOL_MAJOR v ≠ 0x200)

/-- The stream from the remote side ends before the handshake reply is complete. -/
def HandshakeEndOfFile (remote : Remote) : Prop :=
  remote.magic = none ∨ (remote.magic = some SERVE_MAGIC_2 ∧ remote.version = none)

/-- The two words of the handshake (lines 153-154). -/
def handshakeMsg : List Out := [Out.int SERVE_MAGIC_1, Out.int SERVE_PROTOCOL_VERSION]

/-- The items of the build command (lines 187-190). -/
def buildMsg (drvPath : Path) (maxSilentTime buildTimeout : Nat) : List Out :=
  [Out.int cmdBuildPaths, Out.strings {drvPath}, Out.int maxSilentTime, Out.int buildTimeout]

/-- The items of the export request (lines 119-121). -/
def exportMsg (paths : PathSet) : List Out :=
  [Out.int cmdExportPaths, Out.int 0, Out.strings paths]

/-- In the list `l`, some occurrence of `a` comes before some occurrence of `b`. -/
def Before (l : List Path) (a b : Path) : Prop := List.Sublist [a, b] l

instance (l : List Path) (a b : Path) : Decidable (Before l a b) := by
  unfold Before; infer_instance

/-- The four items of the query for valid paths (lines 74-77). -/
def queryMsg (closure : PathSet) (useSubstitutes : Bool) : List Out :=
  [Out.int cmdQueryValidPaths, Out.int 1, Out.int (if useSubstitutes then 1 else 0),
    Out.strings closure]

/-- The items of the import message (lines 107-108). -/
def importMsg (missing : List Path) : List Out :=
  [Out.int cmdImportPaths, Out.exported missing]

/-! ## A sample store, derivation and remote side

A derivation `drvA` that references `depB` and has the single output `outC`. -/

def drvA : Path := str "/nix/store/aaaa-hello.drv"
def depB : Path := str "/nix/store/bbbb-dep"
def outC : Path := str "/nix/store/cccc-hello"
def otherD : Path := str "/nix/store/dddd-other"

/-- In the sample store, `drvA` references `depB`; nothing else has references. -/
def sampleReferences (p q : Path) : Prop := p = drvA ∧ q = depB

def sampleStore : Store where
  computeFSClosure := fun path closure =>
    some (closure ∪ (if path = drvA then {drvA, depB} else {path}))
  topoSortPaths := fun paths => some ([drvA, depB, outC].filter (fun p => decide (p ∈ paths)))
  readDerivation := fun _ => none
  isStorePath := fun p => (p.take 11 == str "/nix/store/")

def sampleDrv : Derivation where
  outputs := [(str "out", outC)]
  inputDrvs := []

def sampleResult : RemoteResult where
  status := .rrMiscFailure
  errorMsg := []
  startTime := 0
  stopTime := 0
  logFile := []

/-- A remote side that follows the protocol, has `depB` already, and builds successfully. -/
def sampleRemote : Remote where
  magic := some SERVE_MAGIC_2
  version := some 0x201
  validPaths := some [depB]
  ackImport := some 1
  buildStatus := some 0
  buildError := none
  exportData := some [outC]

def sampleEnv : Env where
  store := sampleStore
  remote := sampleRemote
  createDirsOk := true
  openOk := true
  spawnOk := true
  logText := str "ssh: connect to host build1 port 22: Connection refused\n"
  startTime := 1000
  stopTime := 1060
  logFileBefore := false

/-- The sample environment with another remote side. -/
def sampleEnvWith (remote : Remote) : Env := { sampleEnv with remote := remote }

/-- A remote side that answers the handshake with a wrong magic word. -/
def badMagicRemote : Remote := { sampleRemote with magic := some 0 }

/-- A remote side that reports the whole closure of `drvA` as valid. -/
def allPresentRemote : Remote := { sampleRemote with validPaths := some [drvA, depB] }

/-- A remote side whose reply has the size of the closure of `drvA` but names `otherD`
in place of `drvA`. -/
def sameSizeRemote : Remote := { sampleRemote with validPaths := some [depB, otherD] }

/-- A remote side that has none of the paths. -/
def emptyRemote : Remote := { sampleRemote with validPaths := some [] }

/-- A remote side whose build times out. -/
def timeoutRemote : Remote :=
  { sampleRemote with buildStatus := some 101, buildError := some (str "silent too long") }

/-- A remote side that reports success and then closes the stream. -/
def closingRemote : Remote := { sampleRemote with exportData := none }

/-- A remote side that reports status 100 and then closes the stream. -/
def closingFailedRemote : Remote :=
  { sampleRemote with buildStatus := some 100, buildError := none }

def sampleState : State := initState sampleEnv sampleResult

/-- The state of the sample run when the input closure of `drvA` has been sent to a
remote side that already had `depB`. -/
def sampleInputState : State where
  sink := handshakeMsg ++ queryMsg {drvA, depB} false ++ importMsg [drvA]
  result := { sampleResult with logFile := str "/var/log/hydra/aa/aa-hello.drv" }
  logFileExists := true
  autoDelete := true

/-- The log file of `drvA` under `sampleLogDir`. -/
def sampleLogFile : Path := str "/var/log/hydra/aa/aa-hello.drv"

def sampleHost : Str := str "build1"
def sampleLogDir : Path := str "/var/log/hydra"

/-! ## Lemmas on `copyClosureTo` -/

theorem foldl_push_eq_filter (present : PathSet) (l acc : List Path) :
    l.foldl (fun missing i => if i ∉ present then missing ++ [i] else missing) acc
      = acc ++ l.filter (fun i => decide (i ∉ present)) := by
  induction l generalizing acc with
  | nil => simp
  | cons x xs ih =>
    rw [List.foldl_cons, ih]
    by_cases hx : x ∈ present
    · simp [hx]
    · simp [hx]

theorem missingPaths_eq_filter (sorted : List Path) (present : PathSet) :
    missingPaths sorted present = sorted.reverse.filter (fun i => decide (i ∉ present)) := by
  unfold missingPaths
  rw [foldl_push_eq_filter]
  simp

theorem mem_missingPaths (sorted : List Path) (present : PathSet) (p : Path) :
    p ∈ missingPaths sorted present ↔ p ∈ sorted ∧ p ∉ present := by
  rw [missingPaths_eq_filter]
  simp

theorem nodup_missingPaths (sorted : List Path) (present : PathSet) (h : sorted.Nodup) :
    (missingPaths sorted present).Nodup := by
  rw [missingPaths_eq_filter]
  exact List.Nodup.filter _ (List.nodup_reverse.mpr h)

theorem not_before_swap_of_nodup (l : List Path) (hl : l.Nodup) (a b : Path)
    (hab : Before l a b) : ¬ Before l b a := by
  unfold Before at *
  induction l with
  | nil => simp at hab
  | cons x xs ih =>
    rw [List.nodup_cons] at hl
    intro hba
    rcases List.sublist_cons_iff.mp hab with h1 | ⟨r1, hr1, h1⟩ <;>
      rcases List.sublist_cons_iff.mp hba with h2 | ⟨r2, hr2, h2⟩
    · exact ih hl.2 h1 h2
    · have hb : b = x := (List.cons.inj hr2).1
      exact hl.1 (hb ▸ h1.subset (by simp))
    · have ha : a = x := (List.cons.inj hr1).1
      exact hl.1 (ha ▸ h2.subset (by simp))
    · have hb : b = x := (List.cons.inj hr2).1
      have hr : [b] = r1 := (List.cons.inj hr1).2
      have hmem : b ∈ xs := (hr ▸ h1).subset (by simp)
      exact hl.1 (hb ▸ hmem)

theorem copyClosureTo_fast (store : Store) (remote : Remote) (paths : PathSet)
    (useSubstitutes : Bool) (s : State) (C : PathSet) (reply : List Path)
    (hC : computeClosure store paths = some C)
    (hreply : remote.validPaths = some reply)
    (hstore : reply.all store.isStorePath = true)
    (hcard : reply.toFinset.card = C.card) :
    copyClosureTo store remote paths useSubstitutes s
      = .ok { s with sink := s.sink ++ queryMsg C useSubstitutes } := by
  simp only [copyClosureTo, hC, hreply, readStorePaths, hstore, if_true, hcard]
  simp [writeInt, writeStrings, queryMsg]

theorem copyClosureTo_slow (store : Store) (remote : Remote) (paths : PathSet)
    (useSubstitutes : Bool) (s : State) (C : PathSet) (reply sorted : List Path)
    (hC : computeClosure store paths = some C)
    (hreply : remote.validPaths = some reply)
    (hstore : reply.all store.isStorePath = true)
    (hcard : reply.toFinset.card ≠ C.card)
    (hsorted : store.topoSortPaths C = some sorted) :
    (after (copyClosureTo store remote paths useSubstitutes s)).sink
      = s.sink ++ queryMsg C useSubstitutes ++ importMsg (missingPaths sorted reply.toFinset) := by
  simp only [copyClosureTo, hC, hreply, readStorePaths, hstore, if_true, hcard, if_false,
    hsorted]
  cases hack : readInt remote.ackImport with
  | error e => simp [after, writeInt, writeStrings, exportPaths, queryMsg, importMsg]
  | ok ack =>
    by_cases h1 : ack = 1
    · simp [after, writeInt, writeStrings, exportPaths, queryMsg, importMsg, h1]
    · simp [after, writeInt, writeStrings, exportPaths, queryMsg, importMsg, h1]

theorem card_ne_of_ssubset (P C : PathSet) (hsub : P ⊆ C) (hne : P ≠ C) : P.card ≠ C.card :=
  Nat.ne_of_lt (Finset.card_lt_card (Finset.ssubset_iff_subset_ne.mpr ⟨hsub, hne⟩))

/-! ## Theorems on `copyClosureTo` -/

/-- C2: when the set `P` of paths the remote side reports as valid is a proper subset
of the closure `C`, and `topoSortPaths` returns each path of `C` exactly once, the list
that `copyClosureTo` sends in its import message has every path of `C` outside `P`
exactly once and no other path. -/
theorem copyClosureTo_missing_exact (store : Store) (remote : Remote) (paths : PathSet)
    (useSubstitutes : Bool) (s : State) (C : PathSet) (reply sorted : List Path)
    (hC : computeClosure store paths = some C)
    (hreply : remote.validPaths = some reply)
    (hstore : reply.all store.isStorePath = true)
    (hsub : reply.toFinset ⊆ C) (hne : reply.toFinset ≠ C)
    (hsorted : store.topoSortPaths C = some sorted)
    (hnodup : sorted.Nodup) (hmem : ∀ p, p ∈ sorted ↔ p ∈ C) :
    ∃ missing,
      (after (copyClosureTo store remote paths useSubstitutes s)).sink
        = s.sink ++ queryMsg C useSubstitutes ++ importMsg missing ∧
      missing.Nodup ∧
      (∀ p, p ∈ C → p ∉ reply.toFinset → p ∈ missing) ∧
      (∀ p, p ∈ missing → p ∈ C ∧ p ∉ reply.toFinset) := by
  refine ⟨missingPaths sorted reply.toFinset, ?_, ?_, ?_, ?_⟩
  · exact copyClosureTo_slow store remote paths useSubstitutes s C reply sorted hC hreply
      hstore (card_ne_of_ssubset _ _ hsub hne) hsorted
  · exact nodup_missingPaths sorted _ hnodup
  · intro p hc hp
    exact (mem_missingPaths sorted _ p).mpr ⟨(hmem p).mpr hc, hp⟩
  · intro p hp
    have h := (mem_missingPaths sorted _ p).mp hp
    exact ⟨(hmem p).mp h.1, h.2⟩

/-- C3: when `topoSortPaths` returns the paths of the closure `C`, each once and each
before the paths it references, the list `copyClosureTo` builds for the import (that
order walked from the back, keeping what is not in `P`) is leaves-first: a referenced
missing path comes before the path referring to it, and never after it. -/
theorem copyClosureTo_leaves_first (store : Store) (remote : Remote) (paths : PathSet)
    (useSubstitutes : Bool) (s : State) (C : PathSet) (reply sorted : List Path)
    (references : Path → Path → Prop)
    (hC : computeClosure store paths = some C)
    (hreply : remote.validPaths = some reply)
    (hstore : reply.all store.isStorePath = true)
    (hsub : reply.toFinset ⊆ C)
    (hsorted : store.topoSortPaths C = some sorted)
    (hnodup : sorted.Nodup) (hmem : ∀ p, p ∈ sorted ↔ p ∈ C)
    (horder : ∀ p q, p ∈ C → q ∈ C → references p q → Before sorted p q) :
    (reply.toFinset ≠ C →
      (after (copyClosureTo store remote paths useSubstitutes s)).sink
        = s.sink ++ queryMsg C useSubstitutes
            ++ importMsg (missingPaths sorted reply.toFinset)) ∧
    (∀ p q, references p q → q ∈ missingPaths sorted reply.toFinset →
      ¬ Before (missingPaths sorted reply.toFinset) p q) ∧
    (∀ p q, references p q → p ∈ missingPaths sorted reply.toFinset →
      q ∈ missingPaths sorted reply.toFinset →
      Before (missingPaths sorted reply.toFinset) q p) := by
  have hmemC : ∀ p, p ∈ sorted → p ∈ C := fun p hp => (hmem p).mp hp
  have hkey : ∀ p q, references p q → p ∈ missingPaths sorted reply.toFinset →
      q ∈ missingPaths sorted reply.toFinset →
      Before (missingPaths sorted reply.toFinset) q p := by
    intro p q hpq hp hq
    rw [mem_missingPaths] at hp hq
    have hb : Before sorted p q := horder p q (hmemC p hp.1) (hmemC q hq.1) hpq
    have hrev : List.Sublist [q, p] sorted.reverse := by
      have := List.Sublist.reverse hb
      simpa using this
    have hf := List.Sublist.filter (fun i => decide (i ∉ reply.toFinset)) hrev
    rw [← missingPaths_eq_filter] at hf
    have hfil : List.filter (fun i => decide (i ∉ reply.toFinset)) [q, p] = [q, p] := by
      simp [List.filter, hp.2, hq.2]
    rw [hfil] at hf
    exact hf
  refine ⟨fun hne => copyClosureTo_slow store remote paths useSubstitutes s C reply sorted hC
      hreply hstore (card_ne_of_ssubset _ _ hsub hne) hsorted, ?_, hkey⟩
  intro p q hpq hq hbefore
  have hp : p ∈ missingPaths sorted reply.toFinset := hbefore.subset (by simp)
  have hmnodup : (missingPaths sorted reply.toFinset).Nodup :=
    nodup_missingPaths sorted _ hnodup
  exact not_before_swap_of_nodup _ hmnodup q p (hkey p q hpq hp hq) hbefore

/-! ## How each phase changes the state -/

theorem copyClosureTo_frame (store : Store) (remote : Remote) (paths : PathSet)
    (useSubstitutes : Bool) (s : State) :
    (after (copyClosureTo store remote paths useSubstitutes s)).result = s.result ∧
    (after (copyClosureTo store remote paths useSubstitutes s)).logFileExists = s.logFileExists ∧
    (after (copyClosureTo store remote paths useSubstitutes s)).autoDelete = s.autoDelete := by
  unfold copyClosureTo
  repeat' split
  all_goals simp [after, writeInt, writeStrings, exportPaths]

theorem handshakeTry_sink (remote : Remote) (sshName : Str) (s : State) :
    (after (handshakeTry remote sshName s)).sink
      = s.sink ++ [Out.int SERVE_MAGIC_1, Out.int SERVE_PROTOCOL_VERSION] ∧
    (after (handshakeTry remote sshName s)).result = s.result ∧
    (after (handshakeTry remote sshName s)).logFileExists = s.logFileExists ∧
    (after (handshakeTry remote sshName s)).autoDelete = s.autoDelete := by
  unfold handshakeTry
  repeat' split
  all_goals simp [after, writeInt]

theorem after_handshake (env : Env) (sshName : Str) (s : State) :
    after (handshake env sshName s) = after (handshakeTry env.remote sshName s) := by
  unfold handshake
  split <;> simp_all [after]

theorem openSession_after (env : Env) (drvPath logDir : Path) (s : State) (logFile : Path)
    (hlog : logFilePath logDir drvPath = .ok logFile) :
    (after (openSession env drvPath logDir s)).sink = s.sink ∧
    (after (openSession env drvPath logDir s)).result = { s.result with logFile := logFile } ∧
    (after (openSession env drvPath logDir s)).autoDelete = true := by
  unfold openSession
  rw [hlog]
  simp only []
  repeat' split
  all_goals simp [after]

theorem openSession_eq_ok (env : Env) (drvPath logDir : Path) (s : State) (logFile : Path)
    (hlog : logFilePath logDir drvPath = .ok logFile)
    (hdirs : env.createDirsOk = true) (hopen : env.openOk = true)
    (hspawn : env.spawnOk = true) :
    openSession env drvPath logDir s
      = .ok { sink := s.sink, result := { s.result with logFile := logFile },
              logFileExists := true, autoDelete := true } := by
  simp [openSession, hlog, hdirs, hopen, hspawn]

theorem readInt_of_lt (n : Nat) (h : n < 2 ^ 32) : readInt (some n) = .ok n := by
  show (if n < 2 ^ 32 then Except.ok n else Except.error Exn.SerialisationError) = _
  rw [if_pos h]

theorem readInt_of_not_lt (n : Nat) (h : ¬ n < 2 ^ 32) :
    readInt (some n) = .error .SerialisationError := by
  show (if n < 2 ^ 32 then Except.ok n else Except.error Exn.SerialisationError) = _
  rw [if_neg h]

theorem readInt_none : readInt none = .error .EndOfFile := rfl

theorem handshake_fails (env : Env) (sshName : Str) (s : State)
    (h : HandshakeRejected env.remote ∨ HandshakeEndOfFile env.remote) :
    ∃ e s2, handshake env sshName s = .error (e, s2) := by
  have hm2 : SERVE_MAGIC_2 < 2 ^ 32 := by decide
  rcases h with (⟨m, hm, hne⟩ | ⟨hm, v, hv, hne⟩) | (hm | ⟨hm, hv⟩)
  · by_cases h32 : m < 2 ^ 32
    · simp [handshake, handshakeTry, hm, readInt_of_lt m h32, hne]
    · simp [handshake, handshakeTry, hm, readInt_of_not_lt m h32]
  · by_cases h32 : v < 2 ^ 32
    · simp [handshake, handshakeTry, hm, readInt_of_lt _ hm2, hv, readInt_of_lt v h32, hne]
    · simp [handshake, handshakeTry, hm, readInt_of_lt _ hm2, hv, readInt_of_not_lt v h32]
  · simp [handshake, handshakeTry, hm, readInt_none]
  · simp [handshake, handshakeTry, hm, readInt_of_lt _ hm2, hv, readInt_none]

theorem handshake_eq_ok (env : Env) (sshName : Str) (s : State) (v : Nat)
    (hmagic : env.remote.magic = some SERVE_MAGIC_2)
    (hversion : env.remote.version = some v) (hv : v < 2 ^ 32)
    (hmajor : GET_PROTOCOL_MAJOR v = 0x200) :
    handshake env sshName s = .ok { s with sink := s.sink ++ handshakeMsg } := by
  have hm2 : SERVE_MAGIC_2 < 2 ^ 32 := by decide
  simp [handshake, handshakeTry, hmagic, readInt_of_lt _ hm2, hversion, readInt_of_lt v hv,
    hmajor, writeInt, handshakeMsg]

theorem autoDeleteDtor_fields (s : State) :
    (autoDeleteDtor s).sink = s.sink ∧ (autoDeleteDtor s).result = s.result ∧
    (autoDeleteDtor s).logFileExists = (s.logFileExists && !s.autoDelete) := by
  unfold autoDeleteDtor
  split <;> simp_all

theorem buildRemote_of_sendInputs_error (env : Env) (sshName : Str) (drvPath : Path)
    (drv : Derivation) (logDir : Path) (maxSilentTime buildTimeout : Nat)
    (result : RemoteResult) (e : Exn) (s : State)
    (h : sendInputs env sshName drvPath drv logDir (initState env result) = .error (e, s)) :
    buildRemote env sshName drvPath drv logDir maxSilentTime buildTimeout result
      = (.error e, autoDeleteDtor s) := by
  simp [buildRemote, h]

theorem sendInputs_handshake_error (env : Env) (sshName : Str) (drvPath : Path)
    (drv : Derivation) (logDir : Path) (s : State) (logFile : Path)
    (hlog : logFilePath logDir drvPath = .ok logFile)
    (hdirs : env.createDirsOk = true) (hopen : env.openOk = true)
    (hspawn : env.spawnOk = true)
    (h : HandshakeRejected env.remote ∨ HandshakeEndOfFile env.remote) :
    ∃ e s2, sendInputs env sshName drvPath drv logDir s = .error (e, s2) ∧
      s2.sink = s.sink ++ handshakeMsg ∧ s2.autoDelete = true ∧ s2.logFileExists = true := by
  have ho := openSession_eq_ok env drvPath logDir s logFile hlog hdirs hopen hspawn
  obtain ⟨e, s2, hh⟩ := handshake_fails env sshName
    { sink := s.sink, result := { s.result with logFile := logFile },
      logFileExists := true, autoDelete := true } h
  have hs := handshakeTry_sink env.remote sshName
    { sink := s.sink, result := { s.result with logFile := logFile },
      logFileExists := true, autoDelete := true }
  rw [← after_handshake, hh] at hs
  refine ⟨e, s2, ?_, ?_, ?_, ?_⟩
  · simp [sendInputs, ho, hh]
  · simpa [after, handshakeMsg] using hs.1
  · simpa [after] using hs.2.2.2
  · simpa [after] using hs.2.2.1

theorem sendInputs_of_open_error (env : Env) (sshName : Str) (drvPath : Path)
    (drv : Derivation) (logDir : Path) (s : State) (e : Exn × State)
    (h1 : openSession env drvPath logDir s = .error e) :
    sendInputs env sshName drvPath drv logDir s = .error e := by
  simp [sendInputs, h1]

theorem sendInputs_of_handshake_error (env : Env) (sshName : Str) (drvPath : Path)
    (drv : Derivation) (logDir : Path) (s s1 : State) (e : Exn × State)
    (h1 : openSession env drvPath logDir s = .ok s1)
    (h2 : handshake env sshName s1 = .error e) :
    sendInputs env sshName drvPath drv logDir s = .error e := by
  simp [sendInputs, h1, h2]

theorem sendInputs_of_gather_none (env : Env) (sshName : Str) (drvPath : Path)
    (drv : Derivation) (logDir : Path) (s s1 s2 : State)
    (h1 : openSession env drvPath logDir s = .ok s1)
    (h2 : handshake env sshName s1 = .ok s2)
    (h3 : gatherInputs env.store drvPath drv = none) :
    sendInputs env sshName drvPath drv logDir s = .error (.Collaborator, s2) := by
  simp [sendInputs, h1, h2, h3]

theorem sendInputs_of_gather_some (env : Env) (sshName : Str) (drvPath : Path)
    (drv : Derivation) (logDir : Path) (s s1 s2 : State) (inputs : PathSet)
    (h1 : openSession env drvPath logDir s = .ok s1)
    (h2 : handshake env sshName s1 = .ok s2)
    (h3 : gatherInputs env.store drvPath drv = some inputs) :
    sendInputs env sshName drvPath drv logDir s
      = copyClosureTo env.store env.remote inputs false s2 := by
  simp [sendInputs, h1, h2, h3]

theorem sendInputs_after (env : Env) (sshName : Str) (drvPath : Path)
    (drv : Derivation) (logDir : Path) (s : State) (logFile : Path)
    (hlog : logFilePath logDir drvPath = .ok logFile) :
    (after (sendInputs env sshName drvPath drv logDir s)).autoDelete = true ∧
    (after (sendInputs env sshName drvPath drv logDir s)).result
      = { s.result with logFile := logFile } := by
  have ho := openSession_after env drvPath logDir s logFile hlog
  cases h1 : openSession env drvPath logDir s with
  | error e =>
    rw [sendInputs_of_open_error env sshName drvPath drv logDir s e h1]
    rw [h1] at ho
    exact ⟨ho.2.2, ho.2.1⟩
  | ok s1 =>
    rw [h1] at ho
    have hh := handshakeTry_sink env.remote sshName s1
    rw [← after_handshake] at hh
    cases h2 : handshake env sshName s1 with
    | error e =>
      rw [sendInputs_of_handshake_error env sshName drvPath drv logDir s s1 e h1 h2]
      rw [h2] at hh
      exact ⟨hh.2.2.2.trans ho.2.2, hh.2.1.trans ho.2.1⟩
    | ok s2 =>
      rw [h2] at hh
      cases h3 : gatherInputs env.store drvPath drv with
      | none =>
        rw [sendInputs_of_gather_none env sshName drvPath drv logDir s s1 s2 h1 h2 h3]
        exact ⟨hh.2.2.2.trans ho.2.2, hh.2.1.trans ho.2.1⟩
      | some inputs =>
        rw [sendInputs_of_gather_some env sshName drvPath drv logDir s s1 s2 inputs h1 h2 h3]
        have hc := copyClosureTo_frame env.store env.remote inputs false s2
        exact ⟨hc.2.2.trans (hh.2.2.2.trans ho.2.2), hc.1.trans (hh.2.1.trans ho.2.1)⟩

theorem copyClosureFrom_frame (remote : Remote) (paths : PathSet) (s : State) :
    (after (copyClosureFrom remote paths s)).sink = s.sink ++ exportMsg paths ∧
    (after (copyClosureFrom remote paths s)).result = s.result ∧
    (after (copyClosureFrom remote paths s)).logFileExists = s.logFileExists ∧
    (after (copyClosureFrom remote paths s)).autoDelete = s.autoDelete := by
  unfold copyClosureFrom
  split <;> simp [after, writeInt, writeStrings, exportMsg]

theorem sendBuildCommand_fields (env : Env) (drvPath : Path)
    (maxSilentTime buildTimeout : Nat) (s : State) :
    (sendBuildCommand env drvPath maxSilentTime buildTimeout s).sink
      = s.sink ++ buildMsg drvPath maxSilentTime buildTimeout ∧
    (sendBuildCommand env drvPath maxSilentTime buildTimeout s).autoDelete = false ∧
    (sendBuildCommand env drvPath maxSilentTime buildTimeout s).logFileExists
      = s.logFileExists ∧
    (sendBuildCommand env drvPath maxSilentTime buildTimeout s).result
      = { s.result with startTime := env.startTime } := by
  simp [sendBuildCommand, writeInt, writeStrings, buildMsg]

theorem runBuild_of_status_error (env : Env) (sshName : Str) (drvPath : Path)
    (drv : Derivation) (maxSilentTime buildTimeout : Nat) (s : State) (e : Exn)
    (hr : readInt env.remote.buildStatus = .error e) :
    runBuild env sshName drvPath drv maxSilentTime buildTimeout s
      = .error (e, sendBuildCommand env drvPath maxSilentTime buildTimeout s) := by
  simp [runBuild, hr]

theorem runBuild_of_nonzero (env : Env) (sshName : Str) (drvPath : Path)
    (drv : Derivation) (maxSilentTime buildTimeout : Nat) (s : State) (res : Nat)
    (hr : readInt env.remote.buildStatus = .ok res) (hres : res ≠ 0) :
    runBuild env sshName drvPath drv maxSilentTime buildTimeout s
      = match readString env.remote.buildError with
        | .error e =>
          .error (e, recordStop env (sendBuildCommand env drvPath maxSilentTime buildTimeout s))
        | .ok msg =>
          .ok (recordFailure sshName msg res
            (recordStop env (sendBuildCommand env drvPath maxSilentTime buildTimeout s))) := by
  simp [runBuild, hr, hres]

theorem runBuild_of_zero (env : Env) (sshName : Str) (drvPath : Path)
    (drv : Derivation) (maxSilentTime buildTimeout : Nat) (s : State)
    (hr : readInt env.remote.buildStatus = .ok 0) :
    runBuild env sshName drvPath drv maxSilentTime buildTimeout s
      = match copyClosureFrom env.remote (outputPaths drv)
          (recordStop env (sendBuildCommand env drvPath maxSilentTime buildTimeout s)) with
        | .error e => .error e
        | .ok s => .ok { s with result := { s.result with status := .rrSuccess } } := by
  simp [runBuild, hr]

theorem runBuild_frame (env : Env) (sshName : Str) (drvPath : Path) (drv : Derivation)
    (maxSilentTime buildTimeout : Nat) (s : State) :
    (after (runBuild env sshName drvPath drv maxSilentTime buildTimeout s)).autoDelete = false ∧
    (after (runBuild env sshName drvPath drv maxSilentTime buildTimeout s)).logFileExists
      = s.logFileExists ∧
    (after (runBuild env sshName drvPath drv maxSilentTime buildTimeout s)).result.logFile
      = s.result.logFile := by
  have hb := sendBuildCommand_fields env drvPath maxSilentTime buildTimeout s
  cases hr : readInt env.remote.buildStatus with
  | error e =>
    rw [runBuild_of_status_error env sshName drvPath drv maxSilentTime buildTimeout s e hr]
    simp [after, hb]
  | ok res =>
    by_cases h0 : res = 0
    · subst h0
      rw [runBuild_of_zero env sshName drvPath drv maxSilentTime buildTimeout s hr]
      have hf := copyClosureFrom_frame env.remote (outputPaths drv)
        (recordStop env (sendBuildCommand env drvPath maxSilentTime buildTimeout s))
      cases hc : copyClosureFrom env.remote (outputPaths drv)
          (recordStop env (sendBuildCommand env drvPath maxSilentTime buildTimeout s)) with
      | error e =>
        obtain ⟨e, s2⟩ := e
        rw [hc] at hf
        simp only [after] at hf ⊢
        simp [hf, recordStop, hb]
      | ok s2 =>
        rw [hc] at hf
        simp only [after] at hf ⊢
        simp [hf, recordStop, hb]
    · rw [runBuild_of_nonzero env sshName drvPath drv maxSilentTime buildTimeout s res hr h0]
      cases hm : readString env.remote.buildError with
      | error e => simp [after, recordStop, hb]
      | ok msg => simp [after, recordStop, recordFailure, hb]

theorem buildRemote_of_sendInputs_ok (env : Env) (sshName : Str) (drvPath : Path)
    (drv : Derivation) (logDir : Path) (maxSilentTime buildTimeout : Nat)
    (result : RemoteResult) (s1 : State)
    (h : sendInputs env sshName drvPath drv logDir (initState env result) = .ok s1) :
    buildRemote env sshName drvPath drv logDir maxSilentTime buildTimeout result
      = (outcome (runBuild env sshName drvPath drv maxSilentTime buildTimeout s1),
         after (runBuild env sshName drvPath drv maxSilentTime buildTimeout s1)) := by
  have hf := runBuild_frame env sshName drvPath drv maxSilentTime buildTimeout s1
  unfold buildRemote
  rw [h]
  simp only []
  cases h2 : runBuild env sshName drvPath drv maxSilentTime buildTimeout s1 with
  | error e =>
    obtain ⟨e, s2⟩ := e
    rw [h2] at hf
    simp [outcome, after, autoDeleteDtor] at hf ⊢
    simp [hf.1]
  | ok s2 =>
    rw [h2] at hf
    simp [outcome, after, autoDeleteDtor] at hf ⊢
    simp [hf.1]

theorem buildRemote_handshake_error (env : Env) (sshName : Str) (drvPath : Path)
    (drv : Derivation) (logDir : Path) (maxSilentTime buildTimeout : Nat)
    (result : RemoteResult) (logFile : Path)
    (hlog : logFilePath logDir drvPath = .ok logFile)
    (hdirs : env.createDirsOk = true) (hopen : env.openOk = true)
    (hspawn : env.spawnOk = true)
    (h : HandshakeRejected env.remote ∨ HandshakeEndOfFile env.remote) :
    ∃ e s2, buildRemote env sshName drvPath drv logDir maxSilentTime buildTimeout result
        = (.error e, s2) ∧ s2.sink = handshakeMsg ∧ s2.logFileExists = false := by
  obtain ⟨e, s2, hs, hsink, hdel, _⟩ := sendInputs_handshake_error env sshName drvPath drv
    logDir (initState env result) logFile hlog hdirs hopen hspawn h
  refine ⟨e, autoDeleteDtor s2, buildRemote_of_sendInputs_error env sshName drvPath drv logDir
    maxSilentTime buildTimeout result e s2 hs, ?_, ?_⟩
  · rw [(autoDeleteDtor_fields s2).1, hsink]
    simp [initState]
  · rw [(autoDeleteDtor_fields s2).2.2, hdel]
    simp

theorem buildRemote_logFile_of (env : Env) (sshName : Str) (drvPath : Path)
    (drv : Derivation) (logDir : Path) (maxSilentTime buildTimeout : Nat)
    (result : RemoteResult) (logFile : Path)
    (hlog : logFilePath logDir drvPath = .ok logFile) :
    (buildRemote env sshName drvPath drv logDir maxSilentTime buildTimeout result).2.result.logFile
      = logFile := by
  have ha := sendInputs_after env sshName drvPath drv logDir (initState env result) logFile hlog
  cases hs : sendInputs env sshName drvPath drv logDir (initState env result) with
  | error e =>
    obtain ⟨e, s1⟩ := e
    rw [buildRemote_of_sendInputs_error env sshName drvPath drv logDir maxSilentTime
      buildTimeout result e s1 hs]
    rw [hs] at ha
    simp only [after] at ha
    simp [(autoDeleteDtor_fields s1).2.1, ha.2]
  | ok s1 =>
    rw [buildRemote_of_sendInputs_ok env sshName drvPath drv logDir maxSilentTime
      buildTimeout result s1 hs]
    rw [hs] at ha
    simp only [after] at ha
    have hf := runBuild_frame env sshName drvPath drv maxSilentTime buildTimeout s1
    simp [hf.2.2, ha.2]

theorem rfind_eq_none (c : Char) (l : Str) (h : c ∉ l) : rfind c l = none := by
  induction l with
  | nil => rfl
  | cons x xs ih =>
    have hx : ¬ x = c := fun hxc => h (by simp [hxc])
    have hxs : c ∉ xs := fun hm => h (List.mem_cons_of_mem _ hm)
    simp [rfind, ih hxs, hx]

theorem rfind_append (c : Char) (dir base : Str) (h : c ∉ base) :
    rfind c (dir ++ c :: base) = some dir.length := by
  induction dir with
  | nil => simp [rfind, rfind_eq_none c base h]
  | cons x xs ih => simp [rfind, ih]

theorem logFilePath_eq (logDir dir base : Str) (hslash : '/' ∉ base)
    (hlen : 2 ≤ base.length) :
    logFilePath logDir (dir ++ '/' :: base)
      = .ok (logDir ++ str "/" ++ base.take 2 ++ str "/" ++ base.drop 2) := by
  have hbase : baseNameOf (dir ++ '/' :: base) = .ok base := by
    have hnot : ¬ (dir.length + 1 > (dir ++ '/' :: base).length) := by
      simp only [List.length_append, List.length_cons]; omega
    simp only [baseNameOf, rfind_append '/' dir base hslash, substrFrom, if_neg hnot]
    congr 1
    rw [List.drop_append_eq_append_drop]
    simp
  have h0 : ¬ (0 > base.length) := by omega
  have h2 : ¬ (2 > base.length) := by omega
  simp [logFilePath, hbase, substr, substrFrom, h2]

theorem copyClosureTo_slow_ok (store : Store) (remote : Remote) (paths : PathSet)
    (useSubstitutes : Bool) (s : State) (C : PathSet) (reply sorted : List Path)
    (hC : computeClosure store paths = some C)
    (hreply : remote.validPaths = some reply)
    (hstore : reply.all store.isStorePath = true)
    (hcard : reply.toFinset.card ≠ C.card)
    (hsorted : store.topoSortPaths C = some sorted)
    (hack : remote.ackImport = some 1) :
    copyClosureTo store remote paths useSubstitutes s
      = .ok { s with sink := s.sink ++ queryMsg C useSubstitutes
                ++ importMsg (missingPaths sorted reply.toFinset) } := by
  have h1 : readInt (some 1) = .ok 1 := readInt_of_lt 1 (by decide)
  simp only [copyClosureTo, hC, hreply, readStorePaths, hstore, if_true, hcard, if_false,
    hsorted, hack, h1]
  simp [writeInt, writeStrings, exportPaths, queryMsg, importMsg]

theorem sendInputs_eq_copyClosureTo (env : Env) (sshName : Str) (drvPath : Path)
    (drv : Derivation) (logDir : Path) (s : State) (logFile : Path) (v : Nat)
    (inputs : PathSet)
    (hlog : logFilePath logDir drvPath = .ok logFile)
    (hdirs : env.createDirsOk = true) (hopen : env.openOk = true)
    (hspawn : env.spawnOk = true)
    (hmagic : env.remote.magic = some SERVE_MAGIC_2)
    (hversion : env.remote.version = some v) (hv : v < 2 ^ 32)
    (hmajor : GET_PROTOCOL_MAJOR v = 0x200)
    (hinputs : gatherInputs env.store drvPath drv = some inputs) :
    sendInputs env sshName drvPath drv logDir s
      = copyClosureTo env.store env.remote inputs false
          { sink := s.sink ++ handshakeMsg, result := { s.result with logFile := logFile },
            logFileExists := true, autoDelete := true } := by
  rw [sendInputs_of_gather_some env sshName drvPath drv logDir s _ _ inputs
    (openSession_eq_ok env drvPath logDir s logFile hlog hdirs hopen hspawn)
    (handshake_eq_ok env sshName _ v hmagic hversion hv hmajor) hinputs]

theorem copyClosureFrom_of_some (remote : Remote) (paths : PathSet) (s : State)
    (h : remote.exportData ≠ none) :
    copyClosureFrom remote paths s = .ok { s with sink := s.sink ++ exportMsg paths } := by
  unfold copyClosureFrom
  split
  · rename_i hn; exact absurd hn h
  · simp [writeInt, writeStrings, exportMsg]

theorem copyClosureFrom_of_none (remote : Remote) (paths : PathSet) (s : State)
    (h : remote.exportData = none) :
    copyClosureFrom remote paths s
      = .error (.EndOfFile, { s with sink := s.sink ++ exportMsg paths }) := by
  simp [copyClosureFrom, h, writeInt, writeStrings, exportMsg]

theorem runBuild_zero (env : Env) (sshName : Str) (drvPath : Path)
    (drv : Derivation) (maxSilentTime buildTimeout : Nat) (s : State)
    (hr : readInt env.remote.buildStatus = .ok 0) :
    (after (runBuild env sshName drvPath drv maxSilentTime buildTimeout s)).sink
      = s.sink ++ buildMsg drvPath maxSilentTime buildTimeout ++ exportMsg (outputPaths drv) ∧
    (env.remote.exportData ≠ none →
      outcome (runBuild env sshName drvPath drv maxSilentTime buildTimeout s) = .ok () ∧
      (after (runBuild env sshName drvPath drv maxSilentTime buildTimeout s)).result.status
        = .rrSuccess) ∧
    (env.remote.exportData = none →
      outcome (runBuild env sshName drvPath drv maxSilentTime buildTimeout s)
        = .error .EndOfFile ∧
      (after (runBuild env sshName drvPath drv maxSilentTime buildTimeout s)).result.status
        = s.result.status) := by
  have hb := sendBuildCommand_fields env drvPath maxSilentTime buildTimeout s
  rw [runBuild_of_zero env sshName drvPath drv maxSilentTime buildTimeout s hr]
  by_cases hx : env.remote.exportData = none
  · rw [copyClosureFrom_of_none _ _ _ hx]
    simp [after, outcome, recordStop, hb, hx]
  · rw [copyClosureFrom_of_some _ _ _ hx]
    simp [after, outcome, recordStop, hb, hx]

theorem runBuild_nonzero (env : Env) (sshName : Str) (drvPath : Path)
    (drv : Derivation) (maxSilentTime buildTimeout : Nat) (s : State) (res : Nat)
    (hr : readInt env.remote.buildStatus = .ok res) (hres : res ≠ 0) :
    (after (runBuild env sshName drvPath drv maxSilentTime buildTimeout s)).sink
      = s.sink ++ buildMsg drvPath maxSilentTime buildTimeout ∧
    (∀ m, env.remote.buildError = some m →
      outcome (runBuild env sshName drvPath drv maxSilentTime buildTimeout s) = .ok () ∧
      (after (runBuild env sshName drvPath drv maxSilentTime buildTimeout s)).result.status
        = classify res ∧
      (after (runBuild env sshName drvPath drv maxSilentTime buildTimeout s)).result.errorMsg
        = m ++ str " on " ++ lsquo ++ sshName ++ rsquo) ∧
    (env.remote.buildError = none →
      outcome (runBuild env sshName drvPath drv maxSilentTime buildTimeout s)
        = .error .EndOfFile ∧
      (after (runBuild env sshName drvPath drv maxSilentTime buildTimeout s)).result.status
        = s.result.status) := by
  have hb := sendBuildCommand_fields env drvPath maxSilentTime buildTimeout s
  rw [runBuild_of_nonzero env sshName drvPath drv maxSilentTime buildTimeout s res hr hres]
  cases hm : env.remote.buildError with
  | none => simp [readString, after, outcome, recordStop, hb]
  | some m => simp [readString, after, outcome, recordStop, recordFailure, hb]

theorem readInt_buildStatus (env : Env) (r : Nat) (hr : env.remote.buildStatus = some r)
    (hr32 : r < 2 ^ 32) : readInt env.remote.buildStatus = .ok r := by
  rw [hr]
  exact readInt_of_lt r hr32

theorem sample_closure : computeClosure sampleStore {drvA} = some {drvA, depB} := by
  simp [computeClosure, Finset.sort_singleton, sampleStore]

theorem sample_logFilePath : logFilePath sampleLogDir drvA = .ok sampleLogFile := by
  rfl

theorem sample_gatherInputs : gatherInputs sampleStore drvA sampleDrv = some {drvA} := rfl

theorem sample_topoSort :
    sampleStore.topoSortPaths {drvA, depB} = some [drvA, depB] := by
  decide

theorem sample_missing : missingPaths [drvA, depB] [depB].toFinset = [drvA] := by
  decide

theorem sample_sendInputs (remote : Remote)
    (hmagic : remote.magic = some SERVE_MAGIC_2) (hversion : remote.version = some 0x201)
    (hreply : remote.validPaths = some [depB]) (hack : remote.ackImport = some 1) :
    sendInputs (sampleEnvWith remote) sampleHost drvA sampleDrv sampleLogDir
      (initState (sampleEnvWith remote) sampleResult) = .ok sampleInputState := by
  rw [sendInputs_eq_copyClosureTo (sampleEnvWith remote) sampleHost drvA sampleDrv
    sampleLogDir _ sampleLogFile 0x201 {drvA} sample_logFilePath rfl rfl rfl hmagic hversion
    (by decide) (by decide) sample_gatherInputs]
  have hstore : (sampleEnvWith remote).store = sampleStore := rfl
  have hremote : (sampleEnvWith remote).remote = remote := rfl
  rw [hstore, hremote]
  rw [copyClosureTo_slow_ok sampleStore remote {drvA} false _ {drvA, depB} [depB]
    [drvA, depB] sample_closure hreply (by decide) (by decide) sample_topoSort hack]
  rw [sample_missing]
  rfl

/-! ## Handshake failures -/

/-- C5: when the remote side answers the handshake with a magic word other than
`SERVE_MAGIC_2`, or with a version whose major component is not `0x200`,
`buildRemote` does not return normally and the two handshake words are all it has
written to the remote side. -/
theorem buildRemote_handshake_rejected (env : Env) (sshName : Str) (drvPath : Path)
    (drv : Derivation) (logDir : Path) (maxSilentTime buildTimeout : Nat)
    (result : RemoteResult) (logFile : Path)
    (hlog : logFilePath logDir drvPath = .ok logFile)
    (hdirs : env.createDirsOk = true) (hopen : env.openOk = true)
    (hspawn : env.spawnOk = true)
    (h : HandshakeRejected env.remote) :
    (buildRemote env sshName drvPath drv logDir maxSilentTime buildTimeout result).1 ≠ .ok () ∧
    (buildRemote env sshName drvPath drv logDir maxSilentTime buildTimeout result).2.sink
      = [Out.int SERVE_MAGIC_1, Out.int SERVE_PROTOCOL_VERSION] := by
  obtain ⟨e, s2, hb, hsink, _⟩ := buildRemote_handshake_error env sshName drvPath drv logDir
    maxSilentTime buildTimeout result logFile hlog hdirs hopen hspawn (Or.inl h)
  rw [hb]
  exact ⟨by simp, hsink⟩

/-- An instance of C5: the sample run against a remote side answering with magic word 0. -/
theorem buildRemote_handshake_rejected_witness :
    HandshakeRejected (sampleEnvWith badMagicRemote).remote ∧
    (buildRemote (sampleEnvWith badMagicRemote) sampleHost drvA sampleDrv sampleLogDir 10 20
      sampleResult).1 ≠ .ok () ∧
    (buildRemote (sampleEnvWith badMagicRemote) sampleHost drvA sampleDrv sampleLogDir 10 20
      sampleResult).2.sink = [Out.int SERVE_MAGIC_1, Out.int SERVE_PROTOCOL_VERSION] :=
  ⟨Or.inl ⟨0, rfl, by decide⟩,
    buildRemote_handshake_rejected (sampleEnvWith badMagicRemote) sampleHost drvA sampleDrv
      sampleLogDir 10 20 sampleResult sampleLogFile sample_logFilePath rfl rfl rfl
      (Or.inl ⟨0, rfl, by decide⟩)⟩

/-- C6, as the code has it: when the handshake fails (wrong magic word, unsupported
major version, or end of the stream before the reply is complete), `buildRemote` does
not return normally and the log file it created no longer exists afterwards: the
pending `AutoDelete` removes it. -/
theorem buildRemote_handshake_failure_removes_log (env : Env) (sshName : Str)
    (drvPath : Path) (drv : Derivation) (logDir : Path) (maxSilentTime buildTimeout : Nat)
    (result : RemoteResult) (logFile : Path)
    (hlog : logFilePath logDir drvPath = .ok logFile)
    (hdirs : env.createDirsOk = true) (hopen : env.openOk = true)
    (hspawn : env.spawnOk = true)
    (h : HandshakeRejected env.remote ∨ HandshakeEndOfFile env.remote) :
    (buildRemote env sshName drvPath drv logDir maxSilentTime buildTimeout result).1 ≠ .ok () ∧
    (buildRemote env sshName drvPath drv logDir maxSilentTime buildTimeout
      result).2.logFileExists = false := by
  obtain ⟨e, s2, hb, _, hdel⟩ := buildRemote_handshake_error env sshName drvPath drv logDir
    maxSilentTime buildTimeout result logFile hlog hdirs hopen hspawn h
  rw [hb]
  exact ⟨by simp, hdel⟩

/-- An instance of the amended C6: the sample run against a remote side that closes the stream at once. -/
theorem buildRemote_handshake_failure_removes_log_witness :
    HandshakeEndOfFile (sampleEnvWith { sampleRemote with magic := none }).remote ∧
    (buildRemote (sampleEnvWith { sampleRemote with magic := none }) sampleHost drvA sampleDrv
      sampleLogDir 10 20 sampleResult).1 ≠ .ok () ∧
    (buildRemote (sampleEnvWith { sampleRemote with magic := none }) sampleHost drvA sampleDrv
      sampleLogDir 10 20 sampleResult).2.logFileExists = false :=
  ⟨Or.inl rfl,
    buildRemote_handshake_failure_removes_log (sampleEnvWith { sampleRemote with magic := none })
      sampleHost drvA sampleDrv sampleLogDir 10 20 sampleResult sampleLogFile
      sample_logFilePath rfl rfl rfl (Or.inr (Or.inl rfl))⟩

/-- C6 as stated fails: the remote side answers with a wrong magic word, the log file
had been created, and after `buildRemote` has ended it does not exist. -/
theorem buildRemote_log_removed_after_bad_magic :
    (sampleEnvWith badMagicRemote).openOk = true ∧
    HandshakeRejected (sampleEnvWith badMagicRemote).remote ∧
    ¬ (buildRemote (sampleEnvWith badMagicRemote) sampleHost drvA sampleDrv sampleLogDir 10 20
      sampleResult).2.logFileExists = true := by
  refine ⟨rfl, Or.inl ⟨0, rfl, by decide⟩, ?_⟩
  obtain ⟨e, s2, hb, _, hdel⟩ := buildRemote_handshake_error (sampleEnvWith badMagicRemote)
    sampleHost drvA sampleDrv sampleLogDir 10 20 sampleResult sampleLogFile
    sample_logFilePath rfl rfl rfl (Or.inl (Or.inl ⟨0, rfl, by decide⟩))
  rw [hb, hdel]
  simp

/-! ## The log file -/

/-- C9, as the code has it: for a derivation path `dir/base` whose base name `base`
(the part after the last slash) has at least two characters, the log file path
recorded in the result is the log directory, a slash, the first two characters of
`base`, a slash, and the remaining characters of `base`. -/
theorem buildRemote_logFile_base (env : Env) (sshName : Str) (dir base : Str)
    (drv : Derivation) (logDir : Path) (maxSilentTime buildTimeout : Nat)
    (result : RemoteResult) (hslash : '/' ∉ base) (hlen : 2 ≤ base.length) :
    (buildRemote env sshName (dir ++ '/' :: base) drv logDir maxSilentTime buildTimeout
      result).2.result.logFile
      = logDir ++ str "/" ++ base.take 2 ++ str "/" ++ base.drop 2 :=
  buildRemote_logFile_of env sshName (dir ++ '/' :: base) drv logDir maxSilentTime
    buildTimeout result _ (logFilePath_eq logDir dir base hslash hlen)

/-- An instance of the amended C9: the sample derivation path split at its last slash. -/
theorem buildRemote_logFile_base_witness :
    '/' ∉ str "aaaa-hello.drv" ∧ 2 ≤ (str "aaaa-hello.drv").length ∧
    (buildRemote sampleEnv sampleHost (str "/nix/store" ++ '/' :: str "aaaa-hello.drv")
      sampleDrv sampleLogDir 10 20 sampleResult).2.result.logFile
      = sampleLogDir ++ str "/" ++ (str "aaaa-hello.drv").take 2 ++ str "/"
          ++ (str "aaaa-hello.drv").drop 2 :=
  ⟨by decide, by decide,
    buildRemote_logFile_base sampleEnv sampleHost (str "/nix/store") (str "aaaa-hello.drv")
      sampleDrv sampleLogDir 10 20 sampleResult (by decide) (by decide)⟩

/-- C9 as stated fails: for the task identifier `/nix/store/aaaa-hello.drv` the
recorded log file is `/var/log/hydra/aa/aa-hello.drv`, not the log directory followed
by the first two characters of the identifier and the rest of it. -/
theorem buildRemote_logFile_not_from_identifier :
    2 ≤ drvA.length ∧
    (buildRemote sampleEnv sampleHost drvA sampleDrv sampleLogDir 10 20
      sampleResult).2.result.logFile = str "/var/log/hydra/aa/aa-hello.drv" ∧
    (buildRemote sampleEnv sampleHost drvA sampleDrv sampleLogDir 10 20
      sampleResult).2.result.logFile
      ≠ sampleLogDir ++ str "/" ++ drvA.take 2 ++ str "/" ++ drvA.drop 2 := by
  rw [buildRemote_logFile_of sampleEnv sampleHost drvA sampleDrv sampleLogDir 10 20
    sampleResult sampleLogFile sample_logFilePath]
  exact ⟨by decide, rfl, by decide⟩

/-! ## The outcome of the build -/

/-- C1, as the code has it: let `r` be the status word read after the build command.
If `r = 0` the export request is written after the build command, and the run returns
with status success provided the packaged outputs arrive.  If `r ≠ 0` nothing is
written after the build command, and provided the error string arrives the run returns
with status permanent failure for 100, timed out for 101 and miscellaneous failure
otherwise. -/
theorem buildRemote_classification (env : Env) (sshName : Str) (drvPath : Path)
    (drv : Derivation) (logDir : Path) (maxSilentTime buildTimeout : Nat)
    (result : RemoteResult) (s1 : State) (r : Nat)
    (hin : sendInputs env sshName drvPath drv logDir (initState env result) = .ok s1)
    (hr : env.remote.buildStatus = some r) (hr32 : r < 2 ^ 32) :
    (r = 0 →
      (buildRemote env sshName drvPath drv logDir maxSilentTime buildTimeout result).2.sink
        = s1.sink ++ buildMsg drvPath maxSilentTime buildTimeout
            ++ exportMsg (outputPaths drv) ∧
      (env.remote.exportData ≠ none →
        (buildRemote env sshName drvPath drv logDir maxSilentTime buildTimeout result).1
          = .ok () ∧
        (buildRemote env sshName drvPath drv logDir maxSilentTime buildTimeout
          result).2.result.status = .rrSuccess)) ∧
    (r ≠ 0 →
      (buildRemote env sshName drvPath drv logDir maxSilentTime buildTimeout result).2.sink
        = s1.sink ++ buildMsg drvPath maxSilentTime buildTimeout ∧
      (env.remote.buildError ≠ none →
        (buildRemote env sshName drvPath drv logDir maxSilentTime buildTimeout result).1
          = .ok () ∧
        (buildRemote env sshName drvPath drv logDir maxSilentTime buildTimeout
          result).2.result.status
          = if r = 100 then .rrPermanentFailure
            else if r = 101 then .rrTimedOut else .rrMiscFailure)) := by
  rw [buildRemote_of_sendInputs_ok env sshName drvPath drv logDir maxSilentTime buildTimeout
    result s1 hin]
  have hread := readInt_buildStatus env r hr hr32
  constructor
  · intro h0
    subst h0
    have hz := runBuild_zero env sshName drvPath drv maxSilentTime buildTimeout s1 hread
    exact ⟨hz.1, hz.2.1⟩
  · intro hne
    have hn := runBuild_nonzero env sshName drvPath drv maxSilentTime buildTimeout s1 r
      hread hne
    refine ⟨hn.1, fun hm => ?_⟩
    cases hmsg : env.remote.buildError with
    | none => exact absurd hmsg hm
    | some m => exact ⟨(hn.2.1 m hmsg).1, (hn.2.1 m hmsg).2.1⟩

/-- An instance of the amended C1: the sample run with build status 101. -/
theorem buildRemote_classification_witness :
    (101 = 0 →
      (buildRemote (sampleEnvWith timeoutRemote) sampleHost drvA sampleDrv sampleLogDir 10 20
          sampleResult).2.sink
        = sampleInputState.sink ++ buildMsg drvA 10 20 ++ exportMsg (outputPaths sampleDrv) ∧
      ((sampleEnvWith timeoutRemote).remote.exportData ≠ none →
        (buildRemote (sampleEnvWith timeoutRemote) sampleHost drvA sampleDrv sampleLogDir 10 20
          sampleResult).1 = .ok () ∧
        (buildRemote (sampleEnvWith timeoutRemote) sampleHost drvA sampleDrv sampleLogDir 10 20
          sampleResult).2.result.status = .rrSuccess)) ∧
    (101 ≠ 0 →
      (buildRemote (sampleEnvWith timeoutRemote) sampleHost drvA sampleDrv sampleLogDir 10 20
          sampleResult).2.sink = sampleInputState.sink ++ buildMsg drvA 10 20 ∧
      ((sampleEnvWith timeoutRemote).remote.buildError ≠ none →
        (buildRemote (sampleEnvWith timeoutRemote) sampleHost drvA sampleDrv sampleLogDir 10 20
          sampleResult).1 = .ok () ∧
        (buildRemote (sampleEnvWith timeoutRemote) sampleHost drvA sampleDrv sampleLogDir 10 20
          sampleResult).2.result.status
          = if 101 = 100 then .rrPermanentFailure
            else if 101 = 101 then .rrTimedOut else .rrMiscFailure)) :=
  buildRemote_classification (sampleEnvWith timeoutRemote) sampleHost drvA sampleDrv
    sampleLogDir 10 20 sampleResult sampleInputState 101
    (sample_sendInputs timeoutRemote rfl rfl rfl rfl) rfl (by decide)

/-- C1 as stated fails: the remote side reports status 0 and then closes the stream;
the export request has been written, yet `buildRemote` throws `EndOfFile` and the
status is still the caller's initial one, not success.  Likewise for status 100
followed by the end of the stream: the status is not permanent failure. -/
theorem buildRemote_status_not_set_on_end_of_file :
    (sampleEnvWith closingRemote).remote.buildStatus = some 0 ∧
    (buildRemote (sampleEnvWith closingRemote) sampleHost drvA sampleDrv sampleLogDir 10 20
      sampleResult).1 = .error .EndOfFile ∧
    (buildRemote (sampleEnvWith closingRemote) sampleHost drvA sampleDrv sampleLogDir 10 20
      sampleResult).2.result.status ≠ .rrSuccess ∧
    (sampleEnvWith closingFailedRemote).remote.buildStatus = some 100 ∧
    (buildRemote (sampleEnvWith closingFailedRemote) sampleHost drvA sampleDrv sampleLogDir
      10 20 sampleResult).2.result.status ≠ .rrPermanentFailure := by
  rw [buildRemote_of_sendInputs_ok _ sampleHost drvA sampleDrv sampleLogDir 10 20
    sampleResult sampleInputState (sample_sendInputs closingRemote rfl rfl rfl rfl)]
  rw [buildRemote_of_sendInputs_ok _ sampleHost drvA sampleDrv sampleLogDir 10 20
    sampleResult sampleInputState (sample_sendInputs closingFailedRemote rfl rfl rfl rfl)]
  have hz := runBuild_zero (sampleEnvWith closingRemote) sampleHost drvA sampleDrv 10 20
    sampleInputState (readInt_buildStatus _ 0 rfl (by decide))
  have hn := runBuild_nonzero (sampleEnvWith closingFailedRemote) sampleHost drvA sampleDrv
    10 20 sampleInputState 100 (readInt_buildStatus _ 100 rfl (by decide)) (by decide)
  refine ⟨rfl, (hz.2.2 rfl).1, ?_, rfl, ?_⟩
  · simp only []; rw [(hz.2.2 rfl).2]; decide
  · simp only []; rw [(hn.2.2 rfl).2]; decide

/-- C8, as the code has it: for a nonzero build status `r` followed by the error string
`m`, the error message stored in the result is `m`, then `" on ‘"`, then the host
name, then `"’"`, with the typographic quotes U+2018 and U+2019 of the format string
in their UTF-8 bytes; and for `r = 101` the status is timed out. -/
theorem buildRemote_errorMsg (env : Env) (sshName : Str) (drvPath : Path)
    (drv : Derivation) (logDir : Path) (maxSilentTime buildTimeout : Nat)
    (result : RemoteResult) (s1 : State) (r : Nat) (m : Str)
    (hin : sendInputs env sshName drvPath drv logDir (initState env result) = .ok s1)
    (hr : env.remote.buildStatus = some r) (hr32 : r < 2 ^ 32) (hne : r ≠ 0)
    (hm : env.remote.buildError = some m) :
    (buildRemote env sshName drvPath drv logDir maxSilentTime buildTimeout
      result).2.result.errorMsg = m ++ str " on " ++ lsquo ++ sshName ++ rsquo ∧
    (r = 101 →
      (buildRemote env sshName drvPath drv logDir maxSilentTime buildTimeout
        result).2.result.status = .rrTimedOut) := by
  rw [buildRemote_of_sendInputs_ok env sshName drvPath drv logDir maxSilentTime buildTimeout
    result s1 hin]
  have hn := runBuild_nonzero env sshName drvPath drv maxSilentTime buildTimeout s1 r
    (readInt_buildStatus env r hr hr32) hne
  refine ⟨(hn.2.1 m hm).2.2, fun h101 => ?_⟩
  simp only []
  rw [(hn.2.1 m hm).2.1, h101]
  rfl

/-- An instance of the amended C8: the sample run with build status 101 and the error string `silent too long`. -/
theorem buildRemote_errorMsg_witness :
    (buildRemote (sampleEnvWith timeoutRemote) sampleHost drvA sampleDrv sampleLogDir 10 20
      sampleResult).2.result.errorMsg
      = str "silent too long" ++ str " on " ++ lsquo ++ sampleHost ++ rsquo ∧
    (101 = 101 →
      (buildRemote (sampleEnvWith timeoutRemote) sampleHost drvA sampleDrv sampleLogDir 10 20
        sampleResult).2.result.status = .rrTimedOut) :=
  buildRemote_errorMsg (sampleEnvWith timeoutRemote) sampleHost drvA sampleDrv sampleLogDir
    10 20 sampleResult sampleInputState 101 (str "silent too long")
    (sample_sendInputs timeoutRemote rfl rfl rfl rfl) rfl (by decide) (by decide) rfl

/-- C8 as stated fails: for status 101 with the error string `silent too long` and the
host `build1` the status is timed out, but the stored message is not
`silent too long on 'build1'` with ASCII apostrophes. -/
theorem buildRemote_errorMsg_not_ascii_quoted :
    (buildRemote (sampleEnvWith timeoutRemote) sampleHost drvA sampleDrv sampleLogDir 10 20
      sampleResult).2.result.status = .rrTimedOut ∧
    (buildRemote (sampleEnvWith timeoutRemote) sampleHost drvA sampleDrv sampleLogDir 10 20
      sampleResult).2.result.errorMsg
      ≠ str "silent too long" ++ str " on '" ++ sampleHost ++ str "'" := by
  rw [buildRemote_of_sendInputs_ok _ sampleHost drvA sampleDrv sampleLogDir 10 20
    sampleResult sampleInputState (sample_sendInputs timeoutRemote rfl rfl rfl rfl)]
  have hn := runBuild_nonzero (sampleEnvWith timeoutRemote) sampleHost drvA sampleDrv
    10 20 sampleInputState 101 (readInt_buildStatus _ 101 rfl (by decide)) (by decide)
  have h := hn.2.1 (str "silent too long") rfl
  simp only []
  rw [h.2.1, h.2.2]
  exact ⟨rfl, by decide⟩

theorem runBuild_sink (env : Env) (sshName : Str) (drvPath : Path)
    (drv : Derivation) (maxSilentTime buildTimeout : Nat) (s : State) :
    (after (runBuild env sshName drvPath drv maxSilentTime buildTimeout s)).sink
        = s.sink ++ buildMsg drvPath maxSilentTime buildTimeout ∨
    (after (runBuild env sshName drvPath drv maxSilentTime buildTimeout s)).sink
        = s.sink ++ buildMsg drvPath maxSilentTime buildTimeout
            ++ exportMsg (outputPaths drv) := by
  cases hr : readInt env.remote.buildStatus with
  | error e =>
    left
    rw [runBuild_of_status_error env sshName drvPath drv maxSilentTime buildTimeout s e hr]
    exact (sendBuildCommand_fields env drvPath maxSilentTime buildTimeout s).1
  | ok res =>
    by_cases h0 : res = 0
    · subst h0
      exact Or.inr (runBuild_zero env sshName drvPath drv maxSilentTime buildTimeout s hr).1
    · exact Or.inl
        (runBuild_nonzero env sshName drvPath drv maxSilentTime buildTimeout s res hr h0).1

/-! ## The fast path of `copyClosureTo` -/

/-- C4: when the set of paths the remote side reports as valid equals the closure,
`copyClosureTo` returns having written only the query for valid paths, and
`buildRemote` writes the build command right after that query (followed by nothing or
by the export request). -/
theorem buildRemote_all_present (env : Env) (sshName : Str) (drvPath : Path)
    (drv : Derivation) (logDir : Path) (maxSilentTime buildTimeout : Nat)
    (result : RemoteResult) (logFile : Path) (v : Nat) (inputs C : PathSet)
    (reply : List Path)
    (hlog : logFilePath logDir drvPath = .ok logFile)
    (hdirs : env.createDirsOk = true) (hopen : env.openOk = true)
    (hspawn : env.spawnOk = true)
    (hmagic : env.remote.magic = some SERVE_MAGIC_2)
    (hversion : env.remote.version = some v) (hv : v < 2 ^ 32)
    (hmajor : GET_PROTOCOL_MAJOR v = 0x200)
    (hinputs : gatherInputs env.store drvPath drv = some inputs)
    (hC : computeClosure env.store inputs = some C)
    (hreply : env.remote.validPaths = some reply)
    (hstore : reply.all env.store.isStorePath = true)
    (hall : reply.toFinset = C) :
    (∀ s, copyClosureTo env.store env.remote inputs false s
      = .ok { s with sink := s.sink ++ queryMsg C false }) ∧
    ((buildRemote env sshName drvPath drv logDir maxSilentTime buildTimeout result).2.sink
        = handshakeMsg ++ queryMsg C false ++ buildMsg drvPath maxSilentTime buildTimeout ∨
     (buildRemote env sshName drvPath drv logDir maxSilentTime buildTimeout result).2.sink
        = handshakeMsg ++ queryMsg C false ++ buildMsg drvPath maxSilentTime buildTimeout
            ++ exportMsg (outputPaths drv)) := by
  have hfast : ∀ s, copyClosureTo env.store env.remote inputs false s
      = .ok { s with sink := s.sink ++ queryMsg C false } := fun s =>
    copyClosureTo_fast env.store env.remote inputs false s C reply hC hreply hstore
      (by rw [hall])
  refine ⟨hfast, ?_⟩
  have hin := sendInputs_eq_copyClosureTo env sshName drvPath drv logDir
    (initState env result) logFile v inputs hlog hdirs hopen hspawn hmagic hversion hv hmajor
    hinputs
  rw [hfast] at hin
  rw [buildRemote_of_sendInputs_ok env sshName drvPath drv logDir maxSilentTime buildTimeout
    result _ hin]
  have hs := runBuild_sink env sshName drvPath drv maxSilentTime buildTimeout
    { sink := (initState env result).sink ++ handshakeMsg ++ queryMsg C false,
      result := { (initState env result).result with logFile := logFile },
      logFileExists := true, autoDelete := true }
  simpa [initState] using hs

/-- An instance of C4: the sample run against a remote side that has the whole closure. -/
theorem buildRemote_all_present_witness :
    (∀ s, copyClosureTo (sampleEnvWith allPresentRemote).store
        (sampleEnvWith allPresentRemote).remote {drvA} false s
      = .ok { s with sink := s.sink ++ queryMsg {drvA, depB} false }) ∧
    ((buildRemote (sampleEnvWith allPresentRemote) sampleHost drvA sampleDrv sampleLogDir
        10 20 sampleResult).2.sink
        = handshakeMsg ++ queryMsg {drvA, depB} false ++ buildMsg drvA 10 20 ∨
     (buildRemote (sampleEnvWith allPresentRemote) sampleHost drvA sampleDrv sampleLogDir
        10 20 sampleResult).2.sink
        = handshakeMsg ++ queryMsg {drvA, depB} false ++ buildMsg drvA 10 20
            ++ exportMsg (outputPaths sampleDrv)) :=
  buildRemote_all_present (sampleEnvWith allPresentRemote) sampleHost drvA sampleDrv
    sampleLogDir 10 20 sampleResult sampleLogFile 0x201 {drvA} {drvA, depB} [drvA, depB]
    sample_logFilePath rfl rfl rfl rfl rfl (by decide) (by decide) sample_gatherInputs
    sample_closure rfl (by decide) (by decide)

/-- C10: the fast path of `copyClosureTo` looks at sizes only.  There are a closure `C`
and a reply `P` of the same size, not a subset of `C` and lacking a path of `C`, for
which `copyClosureTo` returns having written the query for valid paths and nothing
else. -/
theorem copyClosureTo_fast_path_by_size :
    ∃ (store : Store) (remote : Remote) (paths : PathSet) (s : State) (C : PathSet)
      (reply : List Path),
      computeClosure store paths = some C ∧
      remote.validPaths = some reply ∧
      ¬ reply.toFinset ⊆ C ∧
      reply.toFinset.card = C.card ∧
      (∃ p, p ∈ C ∧ p ∉ reply.toFinset) ∧
      copyClosureTo store remote paths false s
        = .ok { s with sink := s.sink ++ queryMsg C false } :=
  ⟨sampleStore, sameSizeRemote, {drvA}, sampleState, {drvA, depB}, [depB, otherD],
    sample_closure, rfl, by decide, by decide, ⟨drvA, by decide, by decide⟩,
    copyClosureTo_fast sampleStore sameSizeRemote {drvA} false sampleState {drvA, depB}
      [depB, otherD] sample_closure rfl (by decide) (by decide)⟩

/-! ## Instances of the theorems on the missing paths -/

/-- An instance of C2: the closure of `drvA` against a remote side that has `depB`. -/
theorem copyClosureTo_missing_exact_witness :
    ∃ missing,
      (after (copyClosureTo sampleStore sampleRemote {drvA} false sampleState)).sink
        = sampleState.sink ++ queryMsg {drvA, depB} false ++ importMsg missing ∧
      missing.Nodup ∧
      (∀ p, p ∈ ({drvA, depB} : PathSet) → p ∉ [depB].toFinset → p ∈ missing) ∧
      (∀ p, p ∈ missing → p ∈ ({drvA, depB} : PathSet) ∧ p ∉ [depB].toFinset) :=
  copyClosureTo_missing_exact sampleStore sampleRemote {drvA} false sampleState {drvA, depB}
    [depB] [drvA, depB] sample_closure rfl (by decide) (by decide) (by decide)
    sample_topoSort (by decide) (by intro p; simp)

/-- An instance of C3: the closure of `drvA` against a remote side that has nothing; the list sent is `depB`, then `drvA`. -/
theorem copyClosureTo_leaves_first_witness :
    missingPaths [drvA, depB] ([] : List Path).toFinset = [depB, drvA] ∧
    (([] : List Path).toFinset ≠ ({drvA, depB} : PathSet) →
      (after (copyClosureTo sampleStore emptyRemote {drvA} false sampleState)).sink
        = sampleState.sink ++ queryMsg {drvA, depB} false
            ++ importMsg (missingPaths [drvA, depB] ([] : List Path).toFinset)) ∧
    (∀ p q, sampleReferences p q →
      q ∈ missingPaths [drvA, depB] ([] : List Path).toFinset →
      ¬ Before (missingPaths [drvA, depB] ([] : List Path).toFinset) p q) ∧
    (∀ p q, sampleReferences p q →
      p ∈ missingPaths [drvA, depB] ([] : List Path).toFinset →
      q ∈ missingPaths [drvA, depB] ([] : List Path).toFinset →
      Before (missingPaths [drvA, depB] ([] : List Path).toFinset) q p) :=
  ⟨by decide,
    copyClosureTo_leaves_first sampleStore emptyRemote {drvA} false sampleState {drvA, depB}
      [] [drvA, depB] sampleReferences sample_closure rfl (by decide) (by decide)
      sample_topoSort (by decide) (by intro p; simp)
      (by
        rintro p q _ _ ⟨rfl, rfl⟩
        decide)⟩

end Hydra
